import Mathlib

/-!
Shallow embedding of the agent-event confirmation core and the meeting
transcription stub of this repository.

Modelling conventions:
* `db` / record-store state is explicit (`DBState`); every handler returns the
  new state alongside its result, and a thrown JS error is `Except.error` with
  the error's message string.
* JSON-ish record payloads (`output`, JS objects) are association lists of
  `String × JVal`; an optional record field (`execution_result?`) is `Option`.
* Timestamps (`new Date()`) are an abstract clock value `now : Nat` passed in;
  date strings (`due_at`) are kept as opaque strings.
-/

/-- Agent event lifecycle statuses handled by the confirmation core. -/
inductive EventStatus where
  | awaiting_confirmation
  | executed
  | error
deriving DecidableEq, Repr

/-- The string form of a status, as it appears in error messages. -/
def EventStatus.toName : EventStatus → String
  | .awaiting_confirmation => "awaiting_confirmation"
  | .executed => "executed"
  | .error => "error"

/-- A JSON-ish value stored in an output payload. -/
inductive JVal where
  | jbool (b : Bool)
  | jnum (n : Nat)
  | jstr (s : String)
  | jtime (t : Nat)
deriving DecidableEq, Repr

/-- The action-specific input payload of an agent event, as read by the
`create_task` executor (`workspace_id`, `title`, optional `description`,
`priority`, `due_at`); `none` models an absent JS field. -/
structure EventInput where
  workspace_id : Option Nat
  title : Option String
  description : Option String
  priority : Option String
  due_at : Option String
deriving DecidableEq, Repr

/-- A persisted agent event row. -/
structure AgentEvent where
  id : Nat
  workspace_id : Nat
  agent : String
  action : String
  input : EventInput
  status : EventStatus
  output : Option (List (String × JVal))
deriving DecidableEq, Repr

/-- A persisted task row (called `Task` in the source; Lean reserves the root
name `Task`, so the row type is named `TaskRow` here). -/
structure TaskRow where
  id : Nat
  workspace_id : Nat
  title : String
  description : Option String
  priority : String
  due_at : Option String
  status : String
deriving DecidableEq, Repr

/-- The record store state: existing workspace ids, agent events, tasks and
the next generated task id. -/
structure DBState where
  workspaces : List Nat
  agentEvents : List AgentEvent
  tasks : List TaskRow
  nextTaskId : Nat
deriving DecidableEq, Repr

/-- The values of the task priority enum (`low` | `med` | `high`). -/
def priorityNames : List String := ["low", "med", "high"]

/-- Modelled from the spec: the Record Store's `insertTask(fields) -> Task`
operation and the tasks table schema are not under `src/` (only the handler
calling them is).  Per the spec's data model a Task has a required
`workspace_id` referencing an existing workspace, a required `title`, and a
`priority` drawn from the enum `low | med | high`; an insert violating one of
these constraints fails (NOT NULL / foreign key / enum violation), which the
store reports as an error message rather than a row. -/
def insertTask (db : DBState) (workspace_id : Option Nat) (title : Option String)
    (description : Option String) (priority : String) (due_at : Option String)
    (status : String) : Except String (TaskRow × DBState) :=
  match workspace_id with
  | none => .error "null value in column workspace_id violates not-null constraint"
  | some w =>
    if db.workspaces.contains w = false then
      .error ("insert on table tasks violates foreign key constraint: workspace " ++
        toString w ++ " does not exist")
    else
      match title with
      | none => .error "null value in column title violates not-null constraint"
      | some t =>
        if priorityNames.contains priority = false then
          .error ("invalid input value for enum task_priority: " ++ priority)
        else
          let task : TaskRow :=
            { id := db.nextTaskId, workspace_id := w, title := t,
              description := description, priority := priority,
              due_at := due_at, status := status }
          .ok (task, { db with tasks := db.tasks ++ [task],
                               nextTaskId := db.nextTaskId + 1 })

/-- JS `taskInput.priority || 'med'`: the default applies exactly to the falsy
values, i.e. an absent field or the empty string. -/
def resolvePriority : Option String → String
  | none => "med"
  | some p => if p = "" then "med" else p

/-- JS `taskInput.description || null`. -/
def resolveDescription : Option String → Option String
  | none => none
  | some d => if d = "" then none else some d

/-- JS `taskInput.due_at ? new Date(taskInput.due_at) : null` (dates kept as
opaque strings). -/
def resolveDueAt : Option String → Option String
  | none => none
  | some d => if d = "" then none else some d

/-- The result object built by an action executor. -/
structure ExecutionResult where
  success : Bool
  created_task_id : Option Nat := none
  message : Option String := none
  error : Option String := none
deriving DecidableEq, Repr

/-- Input of the confirm handler: `{ event_id, approved }`. -/
structure AgentConfirmInput where
  event_id : Nat
  approved : Bool
deriving DecidableEq, Repr

/-- The handler's return value `{ agent_event, execution_result? }`;
`execution_result := none` models the field being absent. -/
structure AgentConfirmResponse where
  agent_event : AgentEvent
  execution_result : Option ExecutionResult := none
deriving DecidableEq, Repr

/-- The `db.update(agentEventsTable).set({status, output}).where(id)` call:
every event row with the given id gets the new status and output. -/
def updList (events : List AgentEvent) (eid : Nat) (st : EventStatus)
    (out : List (String × JVal)) : List AgentEvent :=
  events.map (fun e => if e.id == eid then { e with status := st, output := some out } else e)

/-- The rejection output payload `{ rejected, rejected_at, reason }`. -/
def rejectOutput (now : Nat) : List (String × JVal) :=
  [("rejected", JVal.jbool true), ("rejected_at", JVal.jtime now),
   ("reason", JVal.jstr "User rejected proposal")]

/-- The approval output prefix `{ approved: true, approved_at: <now> }`. -/
def approvedOutput (now : Nat) : List (String × JVal) :=
  [("approved", JVal.jbool true), ("approved_at", JVal.jtime now)]

/-- The output payload recorded for a successful `create_task` execution. -/
def createTaskOutput (now tid : Nat) : List (String × JVal) :=
  approvedOutput now ++
    [("executed_action", JVal.jstr "task_created"), ("task_id", JVal.jnum tid)]

/-- The output payload recorded when the task insert fails with message `msg`. -/
def executionErrorOutput (now : Nat) (msg : String) : List (String × JVal) :=
  approvedOutput now ++ [("execution_error", JVal.jstr msg)]

/-- The output payload recorded for a non-`create_task` action. -/
def defaultActionOutput (now : Nat) (action : String) : List (String × JVal) :=
  approvedOutput now ++ [("executed_action", JVal.jstr action)]

/-- The executor result `{ success: true, created_task_id: tid, message: "Task created successfully" }`. -/
def taskCreatedResult (tid : Nat) : ExecutionResult :=
  { success := true, created_task_id := some tid, message := some "Task created successfully" }

/-- The executor result `{ success: false, error: msg }`. -/
def insertFailedResult (msg : String) : ExecutionResult :=
  { success := false, error := some msg }

/-- The executor result `{ success: true, message: "Action <action> executed successfully" }`. -/
def defaultActionResult (action : String) : ExecutionResult :=
  { success := true, message := some ("Action " ++ action ++ " executed successfully") }

/-- Shallow embedding of `agentConfirm` (src/server/src/handlers/agent_confirm.ts):
fetch the event, validate it is awaiting confirmation, then either record the
rejection or execute the action (`create_task` inserts a Task, catching
insertion failures as data; any other action is a no-op success) and persist
the terminal status.  Thrown errors leave the state unchanged. -/
def agentConfirm (input : AgentConfirmInput) (now : Nat) (db : DBState) :
    Except String AgentConfirmResponse × DBState :=
  match db.agentEvents.find? (fun e => e.id == input.event_id) with
  | none =>
    (.error ("Agent event with id " ++ toString input.event_id ++ " not found"), db)
  | some existingEvent =>
    if existingEvent.status ≠ EventStatus.awaiting_confirmation then
      (.error ("Agent event " ++ toString input.event_id ++
        " is not awaiting confirmation (current status: " ++
        EventStatus.toName existingEvent.status ++ ")"), db)
    else if input.approved = false then
      let out := rejectOutput now
      (.ok { agent_event := { existingEvent with status := .error, output := some out } },
       { db with agentEvents := updList db.agentEvents input.event_id .error out })
    else if existingEvent.action = "create_task" then
      let ti := existingEvent.input
      match insertTask db ti.workspace_id ti.title (resolveDescription ti.description)
          (resolvePriority ti.priority) (resolveDueAt ti.due_at) "todo" with
      | .ok (newTask, db1) =>
        let outputData := createTaskOutput now newTask.id
        (.ok { agent_event := { existingEvent with status := .executed, output := some outputData },
               execution_result := some (taskCreatedResult newTask.id) },
         { db1 with agentEvents := updList db1.agentEvents input.event_id .executed outputData })
      | .error msg =>
        let outputData := executionErrorOutput now msg
        (.ok { agent_event := { existingEvent with status := .error, output := some outputData },
               execution_result := some (insertFailedResult msg) },
         { db with agentEvents := updList db.agentEvents input.event_id .error outputData })
    else
      let outputData := defaultActionOutput now existingEvent.action
      (.ok { agent_event := { existingEvent with status := .executed, output := some outputData },
             execution_result := some (defaultActionResult existingEvent.action) },
       { db with agentEvents := updList db.agentEvents input.event_id .executed outputData })

/-- Input of the transcription handler. -/
structure TranscribeMeetingInput where
  audio_data : String
  workspace_id : Int
deriving DecidableEq, Repr

/-- The transcription handler's return value. -/
structure TranscriptResponse where
  partial_transcript : String
  is_complete : Bool
deriving DecidableEq, Repr

/-- A base64 digit, i.e. a character of the class `[A-Za-z0-9+/]`. -/
def isBase64Char (c : Char) : Bool :=
  c.isAlpha || c.isDigit || c == '+' || c == '/'

/-- The number of trailing `=` padding characters (capped at 2, as the regex
only ever accepts up to two). -/
def padCount (s : String) : Nat :=
  match s.data.reverse with
  | '=' :: '=' :: _ => 2
  | '=' :: _ => 1
  | _ => 0

/-- The number of base64 digits of the payload, before any padding. -/
def base64DigitCount (s : String) : Nat := s.data.length - padCount s

/-- The test of the regex `^[A-Za-z0-9+/]+(=|==)?$`: one or more base64
digits followed by at most two `=`. -/
def matchesBase64Regex (s : String) : Bool :=
  let n := base64DigitCount s
  decide (0 < n) && (s.data.take n).all isBase64Char &&
    (s.data.drop n).all (fun c => c == '=')

/-- The byte length of `Buffer.from(s, 'base64')` for a string accepted by the
regex: each base64 digit carries 6 bits and incomplete trailing bytes are
dropped, so the length is `⌊3·digits/4⌋`. -/
def decodedLen (s : String) : Nat := 3 * base64DigitCount s / 4

/-- Transcript text returned for audio under 1 KB. -/
def smallTranscript : String :=
  "Welcome to the meeting, today we will discuss..."

/-- Transcript text returned for audio of 1 KB up to 10 KB. -/
def mediumTranscript : String :=
  "Welcome to the meeting, today we will discuss the quarterly results and upcoming project milestones. The team has been working hard on..."

/-- Transcript text returned for audio of at least 10 KB. -/
def largeTranscript : String :=
  "Welcome to the meeting, today we will discuss the quarterly results and upcoming project milestones. The team has been working hard on delivering key features and we need to review our progress. Let\x27s start with the development update and then move to the marketing review."

/-- The size bucket of a decoded byte length: 0 below 1 KB, 1 below 10 KB,
2 at 10 KB or more (the code compares `length / 1024` against 1 and 10). -/
def sizeBucket (len : Nat) : Nat :=
  if len < 1024 then 0 else if len < 10240 then 1 else 2

/-- The fixed transcript text of each size bucket. -/
def bucketText : Nat → String
  | 0 => smallTranscript
  | 1 => mediumTranscript
  | _ => largeTranscript

/-- Shallow embedding of `transcribeMeeting`
(src/server/src/handlers/transcribe_meeting.ts): validate the input (non-empty
audio, positive workspace id, base64 shape, decoded size between 10 bytes and
50 MB), then return a size-bucketed canned transcript prefixed with the
workspace id.  The simulated processing delay has no observable effect and is
omitted. -/
def transcribeMeeting (input : TranscribeMeetingInput) : Except String TranscriptResponse :=
  if input.audio_data = "" then
    .error "Audio data is required"
  else if input.workspace_id ≤ 0 then
    .error "Valid workspace ID is required"
  else if matchesBase64Regex input.audio_data = false then
    .error "Invalid base64 audio data"
  else
    let len := decodedLen input.audio_data
    if len < 10 then
      .error "Audio data too small"
    else if 50 * 1024 * 1024 < len then
      .error "Audio data too large (max 50MB)"
    else
      let pair : String × Bool :=
        if len < 1024 then (smallTranscript, false)
        else if len < 10240 then (mediumTranscript, false)
        else (largeTranscript, true)
      .ok { partial_transcript :=
              "[Workspace " ++ toString input.workspace_id ++ "] " ++ pair.1,
            is_complete := pair.2 }

/-! Sample states used to instantiate the theorems on concrete inputs. -/

/-- A valid `create_task` payload referencing workspace 1. -/
def exInput : EventInput :=
  { workspace_id := some 1, title := some "Test Task",
    description := some "A task", priority := some "high", due_at := none }

/-- An agent event awaiting confirmation with a valid `create_task` payload. -/
def exEvent : AgentEvent :=
  { id := 1, workspace_id := 1, agent := "task_agent", action := "create_task",
    input := exInput, status := EventStatus.awaiting_confirmation, output := none }

/-- A store holding workspace 1 and the single awaiting event `exEvent`. -/
def exDB : DBState :=
  { workspaces := [1], agentEvents := [exEvent], tasks := [], nextTaskId := 1 }

/-- An already-executed event (not awaiting confirmation). -/
def doneEvent : AgentEvent :=
  { exEvent with id := 2, status := EventStatus.executed }

/-- A store holding the executed event `doneEvent`. -/
def doneDB : DBState :=
  { workspaces := [1], agentEvents := [doneEvent], tasks := [], nextTaskId := 1 }

/-- An awaiting event with a non-`create_task` action. -/
def meetEvent : AgentEvent :=
  { id := 3, workspace_id := 1, agent := "calendar_agent", action := "schedule_meeting",
    input := { workspace_id := none, title := some "Team Meeting",
               description := none, priority := none, due_at := none },
    status := EventStatus.awaiting_confirmation, output := none }

/-- A store holding the awaiting `schedule_meeting` event. -/
def meetDB : DBState :=
  { workspaces := [1], agentEvents := [meetEvent], tasks := [], nextTaskId := 1 }

/-- A `create_task` payload referencing the nonexistent workspace 99999. -/
def fkInput : EventInput :=
  { workspace_id := some 99999, title := some "Invalid Task",
    description := none, priority := none, due_at := none }

/-- An awaiting `create_task` event whose insert will hit a foreign-key
violation. -/
def fkEvent : AgentEvent :=
  { id := 4, workspace_id := 1, agent := "task_agent", action := "create_task",
    input := fkInput, status := EventStatus.awaiting_confirmation, output := none }

/-- A store holding only workspace 1 and the event `fkEvent`. -/
def fkDB : DBState :=
  { workspaces := [1], agentEvents := [fkEvent], tasks := [], nextTaskId := 1 }

/-- A `create_task` payload whose priority "urgent" is not in the enum. -/
def badPriorityInput : EventInput :=
  { workspace_id := some 1, title := some "T", description := none,
    priority := some "urgent", due_at := none }

/-- An awaiting `create_task` event carrying the invalid priority "urgent". -/
def badPriorityEvent : AgentEvent :=
  { id := 1, workspace_id := 1, agent := "task_agent", action := "create_task",
    input := badPriorityInput, status := EventStatus.awaiting_confirmation, output := none }

/-- A store holding workspace 1 and `badPriorityEvent`. -/
def badPriorityDB : DBState :=
  { workspaces := [1], agentEvents := [badPriorityEvent], tasks := [], nextTaskId := 1 }

/-- An awaiting `create_task` event whose payload has no priority field. -/
def noPriEvent : AgentEvent :=
  { id := 1, workspace_id := 1, agent := "task_agent", action := "create_task",
    input := { workspace_id := some 1, title := some "NP", description := none,
               priority := none, due_at := none },
    status := EventStatus.awaiting_confirmation, output := none }

/-- A store holding workspace 1 and `noPriEvent`. -/
def noPriDB : DBState :=
  { workspaces := [1], agentEvents := [noPriEvent], tasks := [], nextTaskId := 1 }

/-- The response produced by rejecting `exEvent` at time 3. -/
def rejResp : AgentConfirmResponse :=
  { agent_event := { exEvent with status := EventStatus.error, output := some (rejectOutput 3) },
    execution_result := none }

/-- The store after rejecting `exEvent` at time 3. -/
def rejDB : DBState :=
  { exDB with agentEvents := updList exDB.agentEvents 1 EventStatus.error (rejectOutput 3) }

/-- A valid transcription input: 16 base64 digits (12 decoded bytes). -/
def tIn1 : TranscribeMeetingInput :=
  { audio_data := "QUJDREVGR0hJSktM", workspace_id := 7 }

/-- Another valid transcription input of the same size bucket and workspace. -/
def tIn2 : TranscribeMeetingInput :=
  { audio_data := "MDEyMzQ1Njc4OWFi", workspace_id := 7 }

/-- The response both sample transcriptions produce. -/
def tResp : TranscriptResponse :=
  { partial_transcript := "[Workspace 7] " ++ smallTranscript, is_complete := false }

/-- Helper: updating rows by id preserves which row `find?` locates; the found
row now carries the new status and output. -/
theorem find?_updList (events : List AgentEvent) (eid : Nat) (ev : AgentEvent)
    (st : EventStatus) (out : List (String × JVal))
    (h : events.find? (fun e => e.id == eid) = some ev) :
    (updList events eid st out).find? (fun e => e.id == eid) =
      some { ev with status := st, output := some out } := by
  induction events with
  | nil => simp at h
  | cons a rest ih =>
    unfold updList at *
    simp only [List.map_cons]
    by_cases ha : (a.id == eid) = true
    · have h' : a = ev := by simpa [List.find?_cons, ha] using h
      subst h'
      simp [List.find?_cons, ha]
    · simp only [List.find?_cons, ha] at h
      rw [if_neg ha]
      simp only [List.find?_cons, ha]
      exact ih h

/-- Helper: confirming an event that is not awaiting confirmation throws the
state-validation error and leaves the store unchanged. -/
theorem agentConfirm_nonawaiting_aux (db : DBState) (eid now : Nat) (b : Bool)
    (ev : AgentEvent)
    (hfind : db.agentEvents.find? (fun e => e.id == eid) = some ev)
    (hst : ev.status ≠ EventStatus.awaiting_confirmation) :
    agentConfirm ⟨eid, b⟩ now db =
      (Except.error ("Agent event " ++ toString eid ++
        " is not awaiting confirmation (current status: " ++
        EventStatus.toName ev.status ++ ")"), db) := by
  unfold agentConfirm
  simp only [hfind]
  simp [hst]

/-- C5: confirming an `event_id` that references no existing agent event (with
either `approved` value) throws "Agent event with id <id> not found", with the
literal id interpolated, and writes nothing: the store is returned unchanged. -/
theorem agentConfirm_not_found (db : DBState) (eid now : Nat) (b : Bool)
    (hmiss : ∀ e ∈ db.agentEvents, ¬ e.id = eid) :
    agentConfirm ⟨eid, b⟩ now db =
      (Except.error ("Agent event with id " ++ toString eid ++ " not found"), db) := by
  have hfind : db.agentEvents.find? (fun e => e.id == eid) = none := by
    rw [List.find?_eq_none]
    intro x hx
    simpa using hmiss x hx
  unfold agentConfirm
  simp only [hfind]

/-- C6: confirming an existing event whose status is not
`awaiting_confirmation` (with either `approved` value) throws "Agent event
<id> is not awaiting confirmation (current status: <status>)" with the id and
current status interpolated, and the store (hence the event's status and
output) is returned unchanged. -/
theorem agentConfirm_not_awaiting (db : DBState) (eid now : Nat) (b : Bool)
    (ev : AgentEvent)
    (hfind : db.agentEvents.find? (fun e => e.id == eid) = some ev)
    (hst : ev.status ≠ EventStatus.awaiting_confirmation) :
    agentConfirm ⟨eid, b⟩ now db =
      (Except.error ("Agent event " ++ toString eid ++
        " is not awaiting confirmation (current status: " ++
        EventStatus.toName ev.status ++ ")"), db) :=
  agentConfirm_nonawaiting_aux db eid now b ev hfind hst

/-- C2: rejecting an awaiting event (`approved = false`) updates it to status
`error` with output `{rejected: true, rejected_at: <now>, reason: "User
rejected proposal"}`, and the response carries the updated event with the
`execution_result` field absent (`none`), touching no other record. -/
theorem agentConfirm_reject_marks_error (db : DBState) (eid now : Nat)
    (ev : AgentEvent)
    (hfind : db.agentEvents.find? (fun e => e.id == eid) = some ev)
    (hst : ev.status = EventStatus.awaiting_confirmation) :
    agentConfirm ⟨eid, false⟩ now db =
      (Except.ok { agent_event := { ev with status := EventStatus.error, output := some (rejectOutput now) },
                   execution_result := none },
       { db with agentEvents := updList db.agentEvents eid EventStatus.error (rejectOutput now) }) := by
  unfold agentConfirm
  simp only [hfind]
  simp [hst]

/-- C7: approving an awaiting event whose action is any string other than
`create_task` updates only the event itself (tasks, workspaces and the id
counter are untouched), yielding status `executed`, output with
`executed_action` equal to the event's action, and `execution_result =
{success: true, message: "Action <action> executed successfully"}`. -/
theorem agentConfirm_default_action (db : DBState) (eid now : Nat)
    (ev : AgentEvent)
    (hfind : db.agentEvents.find? (fun e => e.id == eid) = some ev)
    (hst : ev.status = EventStatus.awaiting_confirmation)
    (hact : ev.action ≠ "create_task") :
    agentConfirm ⟨eid, true⟩ now db =
      (Except.ok { agent_event := { ev with status := EventStatus.executed, output := some (defaultActionOutput now ev.action) },
                   execution_result := some (defaultActionResult ev.action) },
       { db with agentEvents := updList db.agentEvents eid EventStatus.executed (defaultActionOutput now ev.action) }) := by
  unfold agentConfirm
  simp only [hfind]
  simp [hst, hact]

/-- C1: approving an awaiting `create_task` event whose payload is valid
(existing workspace, title present, resolved priority in the enum, description
not the empty string) returns status `executed`, output `{approved,
approved_at, executed_action: "task_created", task_id: <new id>}` and
`execution_result = {success: true, created_task_id: <new id>, message: "Task
created successfully"}`, and inserts exactly one new Task carrying the input's
title, description and (resolved) priority with status `todo`; the new task's
id is the id reported in `task_id` and `created_task_id`.  (`resolvePriority`
is the input's priority whenever one is present, with the documented default
`med` when absent.) -/
theorem agentConfirm_create_task_executes (db : DBState) (eid now w : Nat) (t : String)
    (ev : AgentEvent)
    (hfind : db.agentEvents.find? (fun e => e.id == eid) = some ev)
    (hst : ev.status = EventStatus.awaiting_confirmation)
    (hact : ev.action = "create_task")
    (hw : ev.input.workspace_id = some w)
    (hwex : db.workspaces.contains w = true)
    (ht : ev.input.title = some t)
    (hpri : priorityNames.contains (resolvePriority ev.input.priority) = true)
    (hdesc : ev.input.description ≠ some "") :
    (agentConfirm ⟨eid, true⟩ now db).1 =
      Except.ok { agent_event := { ev with status := EventStatus.executed, output := some (createTaskOutput now db.nextTaskId) },
                  execution_result := some (taskCreatedResult db.nextTaskId) } ∧
    ∃ task, (agentConfirm ⟨eid, true⟩ now db).2.tasks = db.tasks ++ [task] ∧
      task.id = db.nextTaskId ∧ task.workspace_id = w ∧ task.title = t ∧
      task.description = ev.input.description ∧
      task.priority = resolvePriority ev.input.priority ∧ task.status = "todo" := by
  have hdesc' : resolveDescription ev.input.description = ev.input.description := by
    cases hd : ev.input.description with
    | none => simp [resolveDescription]
    | some d =>
      have hne : ¬ d = "" := fun hdd => hdesc (by rw [hd, hdd])
      simp [resolveDescription, hne]
  have hwex' : w ∈ db.workspaces := by simpa using hwex
  have hpri' : resolvePriority ev.input.priority ∈ priorityNames := by simpa using hpri
  constructor
  · unfold agentConfirm
    simp only [hfind]
    simp [hst, hact, insertTask, hw, ht, hwex', hpri']
  · refine ⟨{ id := db.nextTaskId, workspace_id := w, title := t, description := ev.input.description, priority := resolvePriority ev.input.priority, due_at := resolveDueAt ev.input.due_at, status := "todo" }, ?_, rfl, rfl, rfl, rfl, rfl, rfl⟩
    unfold agentConfirm
    simp only [hfind]
    simp [hst, hact, insertTask, hw, ht, hwex', hpri', hdesc']

/-- C3: approving an awaiting `create_task` event whose insert fails (e.g. a
nonexistent workspace) does not throw: it returns `Except.ok` with the event
persisted in status `error`, output `{approved, approved_at, execution_error:
<message>}`, `execution_result = {success: false, error: <message>}`, and the
tasks table untouched (the returned state only rewrites the event row). -/
theorem agentConfirm_insert_failure_caught (db : DBState) (eid now : Nat)
    (ev : AgentEvent) (msg : String)
    (hfind : db.agentEvents.find? (fun e => e.id == eid) = some ev)
    (hst : ev.status = EventStatus.awaiting_confirmation)
    (hact : ev.action = "create_task")
    (hfail : insertTask db ev.input.workspace_id ev.input.title
        (resolveDescription ev.input.description) (resolvePriority ev.input.priority)
        (resolveDueAt ev.input.due_at) "todo" = Except.error msg) :
    agentConfirm ⟨eid, true⟩ now db =
      (Except.ok { agent_event := { ev with status := EventStatus.error, output := some (executionErrorOutput now msg) },
                   execution_result := some (insertFailedResult msg) },
       { db with agentEvents := updList db.agentEvents eid EventStatus.error (executionErrorOutput now msg) }) ∧
    (updList db.agentEvents eid EventStatus.error (executionErrorOutput now msg)).find?
        (fun e => e.id == eid) =
      some { ev with status := EventStatus.error, output := some (executionErrorOutput now msg) } := by
  constructor
  · unfold agentConfirm
    simp only [hfind]
    simp [hst, hact, hfail]
  · exact find?_updList db.agentEvents eid ev EventStatus.error (executionErrorOutput now msg) hfind

/-- Helper: a successful insert does not touch the agent events table. -/
theorem insertTask_ok_agentEvents (db : DBState) (wi : Option Nat) (ti : Option String)
    (de : Option String) (pr : String) (du : Option String) (st : String)
    (task : TaskRow) (db' : DBState)
    (h : insertTask db wi ti de pr du st = Except.ok (task, db')) :
    db'.agentEvents = db.agentEvents := by
  unfold insertTask at h
  split at h
  · simp at h
  · split at h
    · simp at h
    · split at h
      · simp at h
      · split at h
        · simp at h
        · simp only [Except.ok.injEq, Prod.mk.injEq] at h
          rw [← h.2]

/-- Helper: every non-throwing confirmation found an awaiting event and
rewrote exactly that event row to a terminal status with a new output. -/
theorem agentConfirm_ok_shape (inp : AgentConfirmInput) (now : Nat) (db db2 : DBState)
    (resp : AgentConfirmResponse)
    (h : agentConfirm inp now db = (Except.ok resp, db2)) :
    ∃ ev st out, db.agentEvents.find? (fun e => e.id == inp.event_id) = some ev ∧
      ev.status = EventStatus.awaiting_confirmation ∧
      (st = EventStatus.executed ∨ st = EventStatus.error) ∧
      resp.agent_event = { ev with status := st, output := some out } ∧
      db2.agentEvents = updList db.agentEvents inp.event_id st out := by
  unfold agentConfirm at h
  cases hfind : db.agentEvents.find? (fun e => e.id == inp.event_id) with
  | none =>
    rw [hfind] at h
    simp at h
  | some ev =>
    rw [hfind] at h
    by_cases hst : ev.status = EventStatus.awaiting_confirmation
    · simp only [hst, ne_eq, not_true_eq_false, if_false, if_neg] at h
      cases happ : inp.approved with
      | false =>
        rw [happ] at h
        rw [if_pos rfl] at h
        simp only [Prod.mk.injEq, Except.ok.injEq] at h
        refine ⟨ev, EventStatus.error, rejectOutput now, rfl, hst, Or.inr rfl, ?_, ?_⟩
        · rw [← h.1]
        · rw [← h.2]
      | true =>
        rw [happ] at h
        rw [if_neg (by simp)] at h
        by_cases hact : ev.action = "create_task"
        · rw [if_pos hact] at h
          cases hins : insertTask db ev.input.workspace_id ev.input.title
              (resolveDescription ev.input.description) (resolvePriority ev.input.priority)
              (resolveDueAt ev.input.due_at) "todo" with
          | ok p =>
            obtain ⟨task, db1⟩ := p
            rw [hins] at h
            simp only [Prod.mk.injEq, Except.ok.injEq] at h
            refine ⟨ev, EventStatus.executed, createTaskOutput now task.id, rfl, hst,
              Or.inl rfl, ?_, ?_⟩
            · rw [← h.1]
            · rw [← h.2]
              have hemb := insertTask_ok_agentEvents db ev.input.workspace_id ev.input.title
                (resolveDescription ev.input.description) (resolvePriority ev.input.priority)
                (resolveDueAt ev.input.due_at) "todo" task db1 hins
              simp [hemb]
          | error msg =>
            rw [hins] at h
            simp only [Prod.mk.injEq, Except.ok.injEq] at h
            refine ⟨ev, EventStatus.error, executionErrorOutput now msg, rfl, hst,
              Or.inr rfl, ?_, ?_⟩
            · rw [← h.1]
            · rw [← h.2]
        · rw [if_neg hact] at h
          simp only [Prod.mk.injEq, Except.ok.injEq] at h
          refine ⟨ev, EventStatus.executed, defaultActionOutput now ev.action, rfl, hst,
            Or.inl rfl, ?_, ?_⟩
          · rw [← h.1]
          · rw [← h.2]
    · simp [hst] at h

/-- C4: every confirmation that completes without throwing moved the event
from `awaiting_confirmation` to exactly one terminal status (`executed` or
`error`), and a second confirm of the same event id (with either `approved`
value) throws the "not awaiting confirmation" error while leaving the store
exactly as it was — no second execution or write happens. -/
theorem agentConfirm_single_confirmation (inp : AgentConfirmInput) (now now2 : Nat)
    (b : Bool) (db db2 : DBState) (resp : AgentConfirmResponse)
    (h : agentConfirm inp now db = (Except.ok resp, db2)) :
    (∃ ev, db.agentEvents.find? (fun e => e.id == inp.event_id) = some ev ∧
      ev.status = EventStatus.awaiting_confirmation) ∧
    (resp.agent_event.status = EventStatus.executed ∨
      resp.agent_event.status = EventStatus.error) ∧
    agentConfirm ⟨inp.event_id, b⟩ now2 db2 =
      (Except.error ("Agent event " ++ toString inp.event_id ++
        " is not awaiting confirmation (current status: " ++
        EventStatus.toName resp.agent_event.status ++ ")"), db2) := by
  obtain ⟨ev, st, out, hfind, hst, hterm, hresp, hupd⟩ :=
    agentConfirm_ok_shape inp now db db2 resp h
  have hstatus : resp.agent_event.status = st := by rw [hresp]
  have hfind2 : db2.agentEvents.find? (fun e => e.id == inp.event_id) =
      some resp.agent_event := by
    rw [hupd, hresp]
    exact find?_updList db.agentEvents inp.event_id ev st out hfind
  have hne : resp.agent_event.status ≠ EventStatus.awaiting_confirmation := by
    rw [hstatus]
    rcases hterm with hterm | hterm <;> rw [hterm] <;> simp
  refine ⟨⟨ev, hfind, hst⟩, ?_, ?_⟩
  · rw [hstatus]
    exact hterm
  · exact agentConfirm_nonawaiting_aux db2 inp.event_id now2 b resp.agent_event hfind2 hne

/-- C8, counterexample: approving a `create_task` whose input carries the
invalid priority "urgent" (existing workspace, title present) does not insert
a Task with the default priority `med` and does not reach status `executed`:
the handler passes "urgent" through (`priority || 'med'` only defaults on
falsy values), the insert fails on the enum, no task row exists afterwards,
and the event ends in status `error`. -/
theorem agentConfirm_invalid_priority_cex :
    (agentConfirm ⟨1, true⟩ 0 badPriorityDB).2.tasks = [] ∧
    (agentConfirm ⟨1, true⟩ 0 badPriorityDB).1 =
      Except.ok { agent_event := { badPriorityEvent with status := EventStatus.error, output := some (executionErrorOutput 0 "invalid input value for enum task_priority: urgent") },
                  execution_result := some (insertFailedResult "invalid input value for enum task_priority: urgent") } :=
  ⟨rfl, rfl⟩

/-- C8 (amended): for an approved `create_task` confirmation with existing
workspace and present title, the Task is inserted with priority `med` exactly
when the input's priority is absent or the empty string (the JS falsy cases of
`priority || 'med'`), and the confirmation then succeeds with `executed`; a
present, non-empty priority outside `low`/`med`/`high` is instead passed
through to the insert, which fails, so the event ends in status `error` and no
Task is created. -/
theorem agentConfirm_priority_fallback (db : DBState) (eid now w : Nat) (t : String)
    (ev : AgentEvent)
    (hfind : db.agentEvents.find? (fun e => e.id == eid) = some ev)
    (hst : ev.status = EventStatus.awaiting_confirmation)
    (hact : ev.action = "create_task")
    (hw : ev.input.workspace_id = some w)
    (hwex : db.workspaces.contains w = true)
    (ht : ev.input.title = some t) :
    ((ev.input.priority = none ∨ ev.input.priority = some "") →
      ∃ task, (agentConfirm ⟨eid, true⟩ now db).2.tasks = db.tasks ++ [task] ∧
        task.priority = "med" ∧
        (agentConfirm ⟨eid, true⟩ now db).1 =
          Except.ok { agent_event := { ev with status := EventStatus.executed, output := some (createTaskOutput now db.nextTaskId) },
                      execution_result := some (taskCreatedResult db.nextTaskId) }) ∧
    (∀ p, ev.input.priority = some p → ¬ p = "" → priorityNames.contains p = false →
      (agentConfirm ⟨eid, true⟩ now db).2.tasks = db.tasks ∧
      ∃ resp, (agentConfirm ⟨eid, true⟩ now db).1 = Except.ok resp ∧
        resp.agent_event.status = EventStatus.error) := by
  have hwex' : w ∈ db.workspaces := by simpa using hwex
  have hmedmem : ("med" : String) ∈ priorityNames := by decide
  constructor
  · intro hp
    have hmed : resolvePriority ev.input.priority = "med" := by
      rcases hp with hp | hp <;> simp [resolvePriority, hp]
    refine ⟨{ id := db.nextTaskId, workspace_id := w, title := t, description := resolveDescription ev.input.description, priority := "med", due_at := resolveDueAt ev.input.due_at, status := "todo" }, ?_, rfl, ?_⟩
    · unfold agentConfirm
      simp only [hfind]
      simp [hst, hact, insertTask, hw, ht, hwex', hmed, hmedmem]
    · unfold agentConfirm
      simp only [hfind]
      simp [hst, hact, insertTask, hw, ht, hwex', hmed, hmedmem]
  · intro p hp hne hinval
    have hres : resolvePriority ev.input.priority = p := by
      simp [resolvePriority, hp, hne]
    have hnotmem : ¬ p ∈ priorityNames := by simpa using hinval
    constructor
    · unfold agentConfirm
      simp only [hfind]
      simp [hst, hact, insertTask, hw, ht, hwex', hres, hnotmem]
    · refine ⟨{ agent_event := { ev with status := EventStatus.error, output := some (executionErrorOutput now ("invalid input value for enum task_priority: " ++ p)) }, execution_result := some (insertFailedResult ("invalid input value for enum task_priority: " ++ p)) }, ?_, rfl⟩
      unfold agentConfirm
      simp only [hfind]
      simp [hst, hact, insertTask, hw, ht, hwex', hres, hnotmem]

/-- Helper: a size bucket is the top bucket exactly at 10 KB and above. -/
theorem sizeBucket_eq_two_iff (len : Nat) : sizeBucket len = 2 ↔ 10240 ≤ len := by
  unfold sizeBucket
  split
  · omega
  · split <;> omega

/-- Helper: a non-throwing transcription returns the workspace-prefixed text
of the decoded length's size bucket, complete exactly at 10 KB and above. -/
theorem transcribeMeeting_ok_shape (i : TranscribeMeetingInput) (r : TranscriptResponse)
    (h : transcribeMeeting i = Except.ok r) :
    r.partial_transcript = "[Workspace " ++ toString i.workspace_id ++ "] " ++
      bucketText (sizeBucket (decodedLen i.audio_data)) ∧
    r.is_complete = decide (10240 ≤ decodedLen i.audio_data) := by
  simp only [transcribeMeeting] at h
  split at h
  · simp at h
  · split at h
    · simp at h
    · split at h
      · simp at h
      · split at h
        · simp at h
        · split at h
          · simp at h
          · split at h
            · simp only [Except.ok.injEq] at h
              subst h
              have hb : sizeBucket (decodedLen i.audio_data) = 0 := by
                unfold sizeBucket
                rw [if_pos (by omega)]
              have hh : ¬ (10240 ≤ decodedLen i.audio_data) := by omega
              rw [hb]
              simp [hh, bucketText]
            · split at h
              · simp only [Except.ok.injEq] at h
                subst h
                have hb : sizeBucket (decodedLen i.audio_data) = 1 := by
                  unfold sizeBucket
                  rw [if_neg (by omega), if_pos (by omega)]
                have hh : ¬ (10240 ≤ decodedLen i.audio_data) := by omega
                rw [hb]
                simp [hh, bucketText]
              · simp only [Except.ok.injEq] at h
                subst h
                have hb : sizeBucket (decodedLen i.audio_data) = 2 := by
                  unfold sizeBucket
                  rw [if_neg (by omega), if_neg (by omega)]
                have hh : 10240 ≤ decodedLen i.audio_data := by omega
                rw [hb]
                simp [hh, bucketText]

/-- C9: the transcription stub is deterministic and stateless in the audio
content: two valid inputs with the same workspace id whose decoded byte
lengths land in the same size bucket (below 1 KB, 1 up to 10 KB, 10 KB and
more) get identical responses; the transcript is always "[Workspace <id>] "
followed by the bucket's fixed text, and `is_complete` holds exactly when the
decoded audio is at least 10 KB. -/
theorem transcribeMeeting_bucketed_deterministic (i1 i2 : TranscribeMeetingInput)
    (r1 r2 : TranscriptResponse)
    (hw : i1.workspace_id = i2.workspace_id)
    (h1 : transcribeMeeting i1 = Except.ok r1)
    (h2 : transcribeMeeting i2 = Except.ok r2)
    (hb : sizeBucket (decodedLen i1.audio_data) = sizeBucket (decodedLen i2.audio_data)) :
    r1 = r2 ∧
    r1.partial_transcript = "[Workspace " ++ toString i1.workspace_id ++ "] " ++
      bucketText (sizeBucket (decodedLen i1.audio_data)) ∧
    (r1.is_complete = true ↔ 10240 ≤ decodedLen i1.audio_data) := by
  obtain ⟨ht1, hc1⟩ := transcribeMeeting_ok_shape i1 r1 h1
  obtain ⟨ht2, hc2⟩ := transcribeMeeting_ok_shape i2 r2 h2
  have hcomp : (10240 ≤ decodedLen i1.audio_data) ↔ (10240 ≤ decodedLen i2.audio_data) := by
    rw [← sizeBucket_eq_two_iff, ← sizeBucket_eq_two_iff, hb]
  refine ⟨?_, ht1, ?_⟩
  · have hp : r1.partial_transcript = r2.partial_transcript := by
      rw [ht1, ht2, hw, hb]
    have hc : r1.is_complete = r2.is_complete := by
      rw [hc1, hc2]
      simp only [decide_eq_decide]
      exact hcomp
    cases r1
    cases r2
    simp_all
  · rw [hc1]
    simp

/-- C10: the transcription stub throws exactly on invalid input — empty
audio, non-positive workspace id, audio not matching the base64 regex, a
decoded payload under 10 bytes, or one over 50 MB — and returns a
`TranscriptResponse` without throwing on every input passing all checks. -/
theorem transcribeMeeting_error_iff (i : TranscribeMeetingInput) :
    ((∃ msg, transcribeMeeting i = Except.error msg) ↔
      (i.audio_data = "" ∨ i.workspace_id ≤ 0 ∨
        matchesBase64Regex i.audio_data = false ∨
        decodedLen i.audio_data < 10 ∨
        50 * 1024 * 1024 < decodedLen i.audio_data)) ∧
    ((∃ r, transcribeMeeting i = Except.ok r) ↔
      ¬ (i.audio_data = "" ∨ i.workspace_id ≤ 0 ∨
        matchesBase64Regex i.audio_data = false ∨
        decodedLen i.audio_data < 10 ∨
        50 * 1024 * 1024 < decodedLen i.audio_data)) := by
  simp only [transcribeMeeting]
  split_ifs <;> simp_all

/-- Witness for C1 at `exDB`: the awaiting `create_task` event 1 is approved
at time 5 and task 1 is created. -/
theorem agentConfirm_create_task_executes_witness :
    (agentConfirm ⟨1, true⟩ 5 exDB).1 =
      Except.ok { agent_event := { exEvent with status := EventStatus.executed, output := some (createTaskOutput 5 exDB.nextTaskId) },
                  execution_result := some (taskCreatedResult exDB.nextTaskId) } ∧
    ∃ task, (agentConfirm ⟨1, true⟩ 5 exDB).2.tasks = exDB.tasks ++ [task] ∧
      task.id = exDB.nextTaskId ∧ task.workspace_id = 1 ∧ task.title = "Test Task" ∧
      task.description = exEvent.input.description ∧
      task.priority = resolvePriority exEvent.input.priority ∧ task.status = "todo" :=
  agentConfirm_create_task_executes exDB 1 5 1 "Test Task" exEvent rfl rfl rfl rfl
    (by decide) rfl (by decide) (by decide)

/-- Witness for C2 at `exDB`: rejecting event 1 at time 3. -/
theorem agentConfirm_reject_marks_error_witness :
    agentConfirm ⟨1, false⟩ 3 exDB =
      (Except.ok { agent_event := { exEvent with status := EventStatus.error, output := some (rejectOutput 3) },
                   execution_result := none },
       { exDB with agentEvents := updList exDB.agentEvents 1 EventStatus.error (rejectOutput 3) }) :=
  agentConfirm_reject_marks_error exDB 1 3 exEvent rfl rfl

/-- Witness for C3 at `fkDB`: approving event 4, whose payload references the
nonexistent workspace 99999, is caught as an execution error. -/
theorem agentConfirm_insert_failure_caught_witness :
    agentConfirm ⟨4, true⟩ 7 fkDB =
      (Except.ok { agent_event := { fkEvent with status := EventStatus.error, output := some (executionErrorOutput 7 "insert on table tasks violates foreign key constraint: workspace 99999 does not exist") },
                   execution_result := some (insertFailedResult "insert on table tasks violates foreign key constraint: workspace 99999 does not exist") },
       { fkDB with agentEvents := updList fkDB.agentEvents 4 EventStatus.error (executionErrorOutput 7 "insert on table tasks violates foreign key constraint: workspace 99999 does not exist") }) ∧
    (updList fkDB.agentEvents 4 EventStatus.error (executionErrorOutput 7 "insert on table tasks violates foreign key constraint: workspace 99999 does not exist")).find?
        (fun e => e.id == 4) =
      some { fkEvent with status := EventStatus.error, output := some (executionErrorOutput 7 "insert on table tasks violates foreign key constraint: workspace 99999 does not exist") } :=
  agentConfirm_insert_failure_caught fkDB 4 7 fkEvent
    "insert on table tasks violates foreign key constraint: workspace 99999 does not exist"
    rfl rfl rfl rfl

/-- Witness for C4: after rejecting event 1 of `exDB` at time 3, a second
confirm at time 9 with `approved = true` throws the not-awaiting error. -/
theorem agentConfirm_single_confirmation_witness :
    (∃ ev, exDB.agentEvents.find? (fun e => e.id == (1 : Nat)) = some ev ∧
      ev.status = EventStatus.awaiting_confirmation) ∧
    (rejResp.agent_event.status = EventStatus.executed ∨
      rejResp.agent_event.status = EventStatus.error) ∧
    agentConfirm ⟨1, true⟩ 9 rejDB =
      (Except.error ("Agent event " ++ toString (1 : Nat) ++
        " is not awaiting confirmation (current status: " ++
        EventStatus.toName rejResp.agent_event.status ++ ")"), rejDB) :=
  agentConfirm_single_confirmation ⟨1, false⟩ 3 9 true exDB rejDB rejResp rfl

/-- Witness for C5: confirming the unknown event id 99999 on `exDB` throws
the not-found error. -/
theorem agentConfirm_not_found_witness :
    agentConfirm ⟨99999, true⟩ 0 exDB =
      (Except.error ("Agent event with id " ++ toString (99999 : Nat) ++ " not found"), exDB) :=
  agentConfirm_not_found exDB 99999 0 true (by decide)

/-- Witness for C6: confirming the already-executed event 2 of `doneDB`
throws the not-awaiting error. -/
theorem agentConfirm_not_awaiting_witness :
    agentConfirm ⟨2, true⟩ 0 doneDB =
      (Except.error ("Agent event " ++ toString (2 : Nat) ++
        " is not awaiting confirmation (current status: " ++
        EventStatus.toName doneEvent.status ++ ")"), doneDB) :=
  agentConfirm_not_awaiting doneDB 2 0 true doneEvent rfl (by decide)

/-- Witness for C7: approving the `schedule_meeting` event 3 of `meetDB`. -/
theorem agentConfirm_default_action_witness :
    agentConfirm ⟨3, true⟩ 2 meetDB =
      (Except.ok { agent_event := { meetEvent with status := EventStatus.executed, output := some (defaultActionOutput 2 meetEvent.action) },
                   execution_result := some (defaultActionResult meetEvent.action) },
       { meetDB with agentEvents := updList meetDB.agentEvents 3 EventStatus.executed (defaultActionOutput 2 meetEvent.action) }) :=
  agentConfirm_default_action meetDB 3 2 meetEvent rfl rfl (by decide)

/-- Witness for C8 (amended) at `noPriDB`: event 1's payload has no priority
field, so an approved confirmation inserts the task with priority `med`. -/
theorem agentConfirm_priority_fallback_witness :
    ((noPriEvent.input.priority = none ∨ noPriEvent.input.priority = some "") →
      ∃ task, (agentConfirm ⟨1, true⟩ 0 noPriDB).2.tasks = noPriDB.tasks ++ [task] ∧
        task.priority = "med" ∧
        (agentConfirm ⟨1, true⟩ 0 noPriDB).1 =
          Except.ok { agent_event := { noPriEvent with status := EventStatus.executed, output := some (createTaskOutput 0 noPriDB.nextTaskId) },
                      execution_result := some (taskCreatedResult noPriDB.nextTaskId) }) ∧
    (∀ p, noPriEvent.input.priority = some p → ¬ p = "" → priorityNames.contains p = false →
      (agentConfirm ⟨1, true⟩ 0 noPriDB).2.tasks = noPriDB.tasks ∧
      ∃ resp, (agentConfirm ⟨1, true⟩ 0 noPriDB).1 = Except.ok resp ∧
        resp.agent_event.status = EventStatus.error) :=
  agentConfirm_priority_fallback noPriDB 1 0 1 "NP" noPriEvent rfl rfl rfl rfl (by decide) rfl

/-- Witness for C9: two distinct valid audio payloads of 12 decoded bytes for
workspace 7 produce the identical small-bucket response. -/
theorem transcribeMeeting_bucketed_deterministic_witness :
    tResp = tResp ∧
    tResp.partial_transcript = "[Workspace " ++ toString tIn1.workspace_id ++ "] " ++
      bucketText (sizeBucket (decodedLen tIn1.audio_data)) ∧
    (tResp.is_complete = true ↔ 10240 ≤ decodedLen tIn1.audio_data) :=
  transcribeMeeting_bucketed_deterministic tIn1 tIn2 tResp tResp rfl rfl rfl rfl
